import Mathlib

/-!
# KC85-3 sample application (`src/KC85-3/Main.cc`)

A shallow embedding of `KC853App`: the tooltip placement, the per-frame input
dispatch (`handleInput`), the frame callback (`OnRunning`) and the regions
registered by `OnInit`.

Conventions of the embedding:

* C++ `int` values are `Int`; the narrowing conversions written in the source
  (`int(std::strlen(str))`, `uint8_t(posX)`) are the explicit wrap-around
  functions `toInt32` and `toUInt8`; `/` on `int` is `Int.tdiv` (truncation
  toward zero).
* Calls into collaborators that are not part of this translation unit
  (`Input`, `Gfx`, `Dbg`, `RayCheck`, `KC85Emu`, `CameraHelper`,
  `SceneRenderer`) are recorded, in program order, in a list of `Call`s; what
  those collaborators compute is a parameter (`Host`).
-/

namespace KC853

/-! ## Machine integers -/

/-- Conversion of an integer to a 32-bit `int`: the value is reduced modulo
`2^32` into the range of the type, as `int(std::strlen(str))` does for a
length that does not fit. -/
def toInt32 (n : Int) : Int := (n + 2147483648) % 4294967296 - 2147483648

/-- Conversion of an `int` to `uint8_t` (reduction modulo 256). -/
def toUInt8 (n : Int) : Nat := (n % 256).toNat

/-- Length of a C string: the number of bytes before the terminator. -/
def strlen (str : String) : Nat := str.utf8ByteSize

/-! ## Collaborator calls -/

/-- The display attributes read by the application (`Gfx::DisplayAttrs()`). -/
structure DisplayAttrs where
  FramebufferWidth : Int
  FramebufferHeight : Int

/-- A call made by the application into one of its collaborators. `F` is the
type of `float` values and `M` the type of `glm::mat4` values. -/
inductive Call (F M : Type) where
  | CameraUpdate
  | RayCheckTest (mousePos : F × F) (invView invProj : M)
  | TogglePower
  | Reset
  | StartGame (name : String)
  | DbgCursorPos (x y : Nat)
  | DbgPrint (str : String)
  | EmuUpdate
  | BeginPass
  | SceneRender (viewProj : M)
  | EmuRender (mvp : M)
  | DrawTextBuffer
  | EndPass
  | CommitFrame
  | QuitRequested

/-! ## `KC853App::tooltip` -/

/-- The value of the local `posX` of `tooltip` after the clamp. -/
def tooltipPosX (disp : DisplayAttrs) (str : String) : Int :=
  let center := Int.tdiv (Int.tdiv disp.FramebufferWidth 16) 2
  let len := toInt32 (strlen str)
  let posX := center - Int.tdiv len 2
  if posX < 0 then 0 else posX

/-- Method `KC853App::tooltip`: positions the debug-text cursor at the column
`uint8_t(posX)` of row 2, then prints the text. -/
def tooltip {F M : Type} (disp : DisplayAttrs) (str : String) : List (Call F M) :=
  [Call.DbgCursorPos (toUInt8 (tooltipPosX disp str)) 2, Call.DbgPrint str]

/-! ## Application state and collaborators -/

/-- The return codes of the frame callbacks used by this application. -/
inductive AppState where
  | Running
  | Cleanup
  deriving DecidableEq, Repr

/-- The interactive elements (the anonymous `enum` of `KC853App`). -/
abbrev PowerOnButton : Int := 0
abbrev ResetButton : Int := 1
abbrev BaseDevice : Int := 2
abbrev Screen : Int := 3
abbrev Junost : Int := 4
abbrev Keyboard : Int := 5
abbrev TapeDeck : Int := 6
abbrev Jungle : Int := 7
abbrev Digger : Int := 8
abbrev Pengo : Int := 9
abbrev Boulderdash : Int := 10
abbrev Cave : Int := 11

/-- The state of the input module (`Input`) during one frame. -/
structure Input (F : Type) where
  /-- Result of `Input::MouseAttached()`. -/
  MouseAttached : Bool
  /-- Result of `Input::MousePosition()`. -/
  MousePosition : F × F
  /-- Result of `Input::MouseButtonDown(MouseButton::Left)`. -/
  MouseButtonDown : Bool

/-- The device state sampled during one frame. -/
structure Frame (F : Type) extends Input F where
  /-- Result of `Gfx::DisplayAttrs()`. -/
  disp : DisplayAttrs
  /-- Result of `Clock::LapTime(this->lapTime)`. -/
  lapTime : F
  /-- Result of `Gfx::QuitRequested()` at the end of the frame. -/
  QuitRequested : Bool

/-- What the collaborators compute. `F` stands for `float`, `M` for
`glm::mat4`, `E` for the state of `KC85Emu` and `C` for the state of
`CameraHelper`; none of these classes is part of the translation unit. -/
structure Host (F M E C : Type) where
  /-- Conversion `float(int)`. -/
  ofInt : Int → F
  /-- Division of `float`s. -/
  fdiv : F → F → F
  /-- Function `glm::inverse`. -/
  inverse : M → M
  /-- Product of two matrices. -/
  mul : M → M → M
  /-- Method `RayCheck::Test(mousePos, invView, invProj)`. -/
  Test : F × F → M → M → Int
  /-- Method `KC85Emu::SwitchedOn`. -/
  SwitchedOn : E → Bool
  /-- Method `KC85Emu::TogglePower`. -/
  TogglePower : E → E
  /-- Method `KC85Emu::Reset`. -/
  Reset : E → E
  /-- Method `KC85Emu::StartGame(name)`. -/
  StartGame : String → E → E
  /-- Method `KC85Emu::Update(Clock::LapTime(lapTime))`. -/
  EmuUpdate : F → E → E
  /-- Method `KC85Emu::Render(mvp)`. -/
  EmuRender : M → E → E
  /-- Method `CameraHelper::Update`, which consumes the input of the frame. -/
  CameraUpdate : Input F → C → C
  /-- Member `CameraHelper::View`. -/
  View : C → M
  /-- Member `CameraHelper::InvProj`. -/
  InvProj : C → M
  /-- Member `CameraHelper::ViewProj`. -/
  ViewProj : C → M

/-- The members of `KC853App` that the frame callback reads or writes. -/
structure App (M E C : Type) where
  kc85Emu : E
  kcModelMatrix : M
  camera : C

/-! ## `KC853App::handleInput` -/

section Dispatch

variable {F M E C : Type}

/-- The statement `if (lmb) { this->kc85Emu.<command>; }`. -/
def ifLmb (lmb : Bool) (command : E → E) (call : Call F M) (emu : E) :
    E × List (Call F M) :=
  if lmb then (command emu, [call]) else (emu, [])

/-- The `switch (hit)` statement of `handleInput`. -/
def switchHit (h : Host F M E C) (disp : DisplayAttrs) (lmb : Bool) (hit : Int) (emu : E) :
    E × List (Call F M) :=
  if hit = PowerOnButton then
    let r := ifLmb lmb h.TogglePower Call.TogglePower emu
    if h.SwitchedOn r.1 then
      (r.1, r.2 ++ tooltip disp "SWITCH KC85/3 OFF")
    else
      (r.1, r.2 ++ tooltip disp "SWITCH KC85/3 ON")
  else if hit = ResetButton then
    let r := ifLmb lmb h.Reset Call.Reset emu
    (r.1, r.2 ++ tooltip disp "RESET KC85/3")
  else if hit = BaseDevice then
    (emu, tooltip disp "A KC85/3, EAST GERMAN 8-BIT COMPUTER")
  else if hit = Screen then
    (emu, [])
  else if hit = Junost then
    (emu, tooltip disp "A YUNOST 402B, SOVIET TV")
  else if hit = Keyboard then
    (emu, tooltip disp "TYPE SOMETHING!")
  else if hit = TapeDeck then
    (emu, tooltip disp "AN \x27LCR-C DATA\x27 TAPE DECK")
  else if hit = Jungle then
    let r := ifLmb lmb (h.StartGame "Jungle") (Call.StartGame "Jungle") emu
    (r.1, r.2 ++ tooltip disp "PLAY JUNGLE!")
  else if hit = Digger then
    let r := ifLmb lmb (h.StartGame "Digger") (Call.StartGame "Digger") emu
    (r.1, r.2 ++ tooltip disp "PLAY DIGGER!")
  else if hit = Pengo then
    let r := ifLmb lmb (h.StartGame "Pengo") (Call.StartGame "Pengo") emu
    (r.1, r.2 ++ tooltip disp "PLAY PENGO!")
  else if hit = Boulderdash then
    let r := ifLmb lmb (h.StartGame "Boulderdash") (Call.StartGame "Boulderdash") emu
    (r.1, r.2 ++ tooltip disp "PLAY BOULDERDASH!")
  else if hit = Cave then
    let r := ifLmb lmb (h.StartGame "Cave") (Call.StartGame "Cave") emu
    (r.1, r.2 ++ tooltip disp "PLAY CAVE!")
  else if h.SwitchedOn emu then
    (emu, [])
  else
    (emu, tooltip disp "EXPLORE!")

/-- The normalised pointer position handed to `RayCheck::Test`. -/
def screenSpaceMousePos (h : Host F M E C) (fr : Frame F) : F × F :=
  (h.fdiv fr.MousePosition.1 (h.ofInt fr.disp.FramebufferWidth),
   h.fdiv fr.MousePosition.2 (h.ofInt fr.disp.FramebufferHeight))

/-- The local `hit` of `handleInput`: the result of `RayCheck::Test`. -/
def hitOf (h : Host F M E C) (fr : Frame F) (app : App M E C) : Int :=
  h.Test (screenSpaceMousePos h fr) (h.inverse (h.View app.camera)) (h.InvProj app.camera)

/-- Method `KC853App::handleInput`: the application state after the call and the
collaborator calls it made, in order. -/
def handleInput (h : Host F M E C) (fr : Frame F) (app : App M E C) :
    App M E C × List (Call F M) :=
  if fr.MouseAttached then
    let lmb := fr.MouseButtonDown
    let disp := fr.disp
    let pos := screenSpaceMousePos h fr
    let invView := h.inverse (h.View app.camera)
    let hit := h.Test pos invView (h.InvProj app.camera)
    let r := switchHit h disp lmb hit app.kc85Emu
    ({ app with kc85Emu := r.1 }, Call.RayCheckTest pos invView (h.InvProj app.camera) :: r.2)
  else
    (app, [])

/-! ## `KC853App::OnRunning` -/

/-- Method `KC853App::OnRunning`: the application state after the frame, the
collaborator calls made, in order, and the returned state code. -/
def OnRunning (h : Host F M E C) (fr : Frame F) (app : App M E C) :
    App M E C × List (Call F M) × AppState :=
  let app1 : App M E C :=
    { app with camera := h.CameraUpdate fr.toInput app.camera }
  let r := handleInput h fr app1
  let app2 := r.1
  let emu3 := h.EmuUpdate fr.lapTime app2.kc85Emu
  let viewProj := h.ViewProj app2.camera
  let mvp := h.mul viewProj app2.kcModelMatrix
  let emu4 := h.EmuRender mvp emu3
  ({ app2 with kc85Emu := emu4 },
   [Call.CameraUpdate] ++ r.2 ++
     [Call.EmuUpdate, Call.BeginPass, Call.SceneRender viewProj, Call.EmuRender mvp,
      Call.DrawTextBuffer, Call.EndPass, Call.CommitFrame, Call.QuitRequested],
   if fr.QuitRequested then AppState.Cleanup else AppState.Running)

/-- A run of frames: `OnRunning` is called once for every frame of the list. -/
def runFrames (h : Host F M E C) : App M E C → List (Frame F) → App M E C × List (Call F M)
  | app, [] => (app, [])
  | app, fr :: frs =>
    let r := OnRunning h fr app
    let rest := runFrames h r.1 frs
    (rest.1, r.2.1 ++ rest.2)

/-- The calls of a trace that are commands to the emulator. -/
def emuCommands (calls : List (Call F M)) : List (Call F M) :=
  calls.filter fun c =>
    match c with
    | Call.TogglePower => true
    | Call.Reset => true
    | Call.StartGame _ => true
    | _ => false

/-- The calls of a trace that go to the debug-text module. -/
def dbgCalls (calls : List (Call F M)) : List (Call F M) :=
  calls.filter fun c =>
    match c with
    | Call.DbgCursorPos _ _ => true
    | Call.DbgPrint _ => true
    | _ => false

/-- The calls of a trace that are ray tests. -/
def rayTests (calls : List (Call F M)) : List (Call F M) :=
  calls.filter fun c =>
    match c with
    | Call.RayCheckTest _ _ _ => true
    | _ => false

/-- The number of `KC85Emu::Reset` invocations in a trace. -/
def resetCount (calls : List (Call F M)) : Nat :=
  calls.countP fun c =>
    match c with
    | Call.Reset => true
    | _ => false

/-- The number of `Gfx::QuitRequested` queries in a trace. -/
def quitChecks (calls : List (Call F M)) : Nat :=
  calls.countP fun c =>
    match c with
    | Call.QuitRequested => true
    | _ => false

/-- The number of frames of a run on which the primary button was held. -/
def heldCount (frs : List (Frame F)) : Nat :=
  frs.countP fun fr => fr.MouseButtonDown

/-- The pointer is attached and the ray test yields `id` on every frame of
the run that starts in `app`. -/
def pointerOn (h : Host F M E C) (id : Int) : App M E C → List (Frame F) → Prop
  | _, [] => True
  | app, fr :: frs =>
    fr.MouseAttached = true ∧
    hitOf h fr { app with camera := h.CameraUpdate fr.toInput app.camera } = id ∧
    pointerOn h id (OnRunning h fr app).1 frs

end Dispatch

/-! ## The dispatch table of the specification -/

/-- The action column of the specification's dispatch table: the emulator
command of an entry, if it has one. -/
def DispatchEntry.action {F M : Type} (hit : Int) : Option (Call F M) :=
  if hit = PowerOnButton then some Call.TogglePower
  else if hit = ResetButton then some Call.Reset
  else if hit = Jungle then some (Call.StartGame "Jungle")
  else if hit = Digger then some (Call.StartGame "Digger")
  else if hit = Pengo then some (Call.StartGame "Pengo")
  else if hit = Boulderdash then some (Call.StartGame "Boulderdash")
  else if hit = Cave then some (Call.StartGame "Cave")
  else none

/-- The tooltip column of the specification's dispatch table for the twelve
regions; `switchedOn` is the power state reported by the emulator. The screen region
is the one marked as having no tooltip. -/
def DispatchEntry.tooltipText (hit : Int) (switchedOn : Bool) : Option String :=
  if hit = PowerOnButton then some (if switchedOn then "SWITCH KC85/3 OFF" else "SWITCH KC85/3 ON")
  else if hit = ResetButton then some "RESET KC85/3"
  else if hit = BaseDevice then some "A KC85/3, EAST GERMAN 8-BIT COMPUTER"
  else if hit = Junost then some "A YUNOST 402B, SOVIET TV"
  else if hit = Keyboard then some "TYPE SOMETHING!"
  else if hit = TapeDeck then some "AN \x27LCR-C DATA\x27 TAPE DECK"
  else if hit = Jungle then some "PLAY JUNGLE!"
  else if hit = Digger then some "PLAY DIGGER!"
  else if hit = Pengo then some "PLAY PENGO!"
  else if hit = Boulderdash then some "PLAY BOULDERDASH!"
  else if hit = Cave then some "PLAY CAVE!"
  else none

/-- The twelve region ids. -/
def regionIds : List Int :=
  [PowerOnButton, ResetButton, BaseDevice, Screen, Junost, Keyboard, TapeDeck,
   Jungle, Digger, Pengo, Boulderdash, Cave]

/-! ## `KC853App::OnInit`: the registered regions -/

/-- A `glm::vec3` whose components are the integer literals of the source. -/
structure Vec3 where
  x : Int
  y : Int
  z : Int
  deriving DecidableEq, Repr

/-- A registered box of the ray checker. -/
structure Region where
  id : Int
  min : Vec3
  max : Vec3
  deriving DecidableEq, Repr

/-- Modelled from the spec: `RayCheck::Add` (declared in `RayCheck.h`, which
is not among the sources) registers a region and fails, as a setup-time
error, if the corners violate `min < max` on some axis or if the id is
already registered. -/
def RayCheck.Add (boxes : List Region) (id : Int) (p0 p1 : Vec3) : Option (List Region) :=
  if p0.x < p1.x ∧ p0.y < p1.y ∧ p0.z < p1.z ∧ id ∉ boxes.map Region.id then
    some (boxes ++ [{ id := id, min := p0, max := p1 }])
  else
    none

/-- The arguments of the twelve `rayChecker.Add` calls of `OnInit`, in
program order. -/
def OnInitRegions : List Region :=
  [ ⟨Screen,        ⟨50, 14, 38⟩, ⟨77, 35, 41⟩⟩,
    ⟨Junost,        ⟨40, 10, 42⟩, ⟨79, 39, 65⟩⟩,
    ⟨PowerOnButton, ⟨44, 1, 37⟩,  ⟨49, 5, 41⟩⟩,
    ⟨ResetButton,   ⟨51, 1, 37⟩,  ⟨56, 5, 41⟩⟩,
    ⟨BaseDevice,    ⟨40, 1, 39⟩,  ⟨79, 8, 65⟩⟩,
    ⟨Keyboard,      ⟨44, 1, 18⟩,  ⟨75, 2, 33⟩⟩,
    ⟨Jungle,        ⟨26, 1, 17⟩,  ⟨34, 2, 22⟩⟩,
    ⟨Digger,        ⟨19, 7, 46⟩,  ⟨27, 8, 51⟩⟩,
    ⟨Pengo,         ⟨15, 1, 13⟩,  ⟨23, 2, 18⟩⟩,
    ⟨Boulderdash,   ⟨21, 1, 4⟩,   ⟨29, 2, 9⟩⟩,
    ⟨Cave,          ⟨14, 0, 28⟩,  ⟨33, 6, 40⟩⟩,
    ⟨TapeDeck,      ⟨14, 0, 41⟩,  ⟨33, 6, 54⟩⟩ ]

/-- The ray-checker part of `OnInit`: the twelve `Add` calls, starting from
an empty registry. -/
def OnInitRayChecker : Option (List Region) :=
  OnInitRegions.foldlM (fun boxes r => RayCheck.Add boxes r.id r.min r.max) []

/-! ## Concrete inputs, used to instantiate the theorems -/

/-- A text of `2^31` bytes: the shortest one whose length does not fit in
an `int`. -/
def longText : String := String.mk (List.replicate 2147483648 (Char.ofNat 65))

/-- A host whose ray test always yields `hit`, whose `float`s are integers
and whose emulator state is its power flag. -/
def demoHost (hit : Int) : Host Int Unit Bool Unit where
  ofInt := fun n => n
  fdiv := fun a b => Int.tdiv a b
  inverse := fun m => m
  mul := fun _ _ => ()
  Test := fun _ _ _ => hit
  SwitchedOn := fun e => e
  TogglePower := fun e => !e
  Reset := fun e => e
  StartGame := fun _ e => e
  EmuUpdate := fun _ e => e
  EmuRender := fun _ e => e
  CameraUpdate := fun _ c => c
  View := fun _ => ()
  InvProj := fun _ => ()
  ViewProj := fun _ => ()

/-- A frame on an 800 by 512 framebuffer with the pointer attached. -/
def demoFrame (lmb : Bool) : Frame Int :=
  { MouseAttached := true, MousePosition := (400, 256), MouseButtonDown := lmb,
    disp := ⟨800, 512⟩, lapTime := 16, QuitRequested := false }

/-- A frame without a pointer device. -/
def noPointerFrame (lmb : Bool) : Frame Int :=
  { MouseAttached := false, MousePosition := (400, 256), MouseButtonDown := lmb,
    disp := ⟨800, 512⟩, lapTime := 16, QuitRequested := false }

/-- An application whose emulator has the given power state. -/
def demoApp (switchedOn : Bool) : App Unit Bool Unit :=
  { kc85Emu := switchedOn, kcModelMatrix := (), camera := () }

/-! ## Lemmas on the machine integers and on `strlen` -/

theorem toInt32_of_lt (n : Nat) (h : n < 2147483648) : toInt32 (n : Int) = (n : Int) := by
  unfold toInt32
  omega

theorem utf8ByteSize_go_replicate (n : Nat) :
    String.utf8ByteSize.go (List.replicate n (Char.ofNat 65)) = n := by
  induction n with
  | zero => rfl
  | succ k ih =>
    have h1 : (Char.ofNat 65).utf8Size = 1 := by decide
    rw [List.replicate_succ, String.utf8ByteSize.go, ih, h1]

theorem strlen_longText : strlen longText = 2147483648 := by
  unfold strlen longText
  exact utf8ByteSize_go_replicate 2147483648

theorem tooltipPosX_eq (disp : DisplayAttrs) (str : String)
    (hW : 0 ≤ disp.FramebufferWidth) (hL : strlen str < 2147483648) :
    tooltipPosX disp str =
      max 0 (disp.FramebufferWidth / 16 / 2 - (strlen str : Int) / 2) := by
  unfold tooltipPosX
  simp only [toInt32_of_lt _ hL]
  have h16 : Int.tdiv disp.FramebufferWidth 16 = disp.FramebufferWidth / 16 :=
    Int.tdiv_eq_ediv hW (by decide)
  have hc0 : 0 ≤ disp.FramebufferWidth / 16 := by omega
  have h2 : Int.tdiv (disp.FramebufferWidth / 16) 2 = disp.FramebufferWidth / 16 / 2 :=
    Int.tdiv_eq_ediv hc0 (by decide)
  have hl : Int.tdiv (strlen str : Int) 2 = (strlen str : Int) / 2 :=
    Int.tdiv_eq_ediv (by omega) (by decide)
  rw [h16, h2, hl]
  split_ifs with hneg <;> omega

theorem tooltipPosX_longText (disp : DisplayAttrs) :
    tooltipPosX disp longText =
      if Int.tdiv (Int.tdiv disp.FramebufferWidth 16) 2 + 1073741824 < 0 then 0
      else Int.tdiv (Int.tdiv disp.FramebufferWidth 16) 2 + 1073741824 := by
  unfold tooltipPosX
  simp only [strlen_longText]
  have h : Int.tdiv (toInt32 ((2147483648 : Nat) : Int)) 2 = -1073741824 := by decide
  rw [h]
  simp only [sub_neg_eq_add]

theorem tooltip_of_column {F M : Type} (disp : DisplayAttrs) (str : String) (x : Nat)
    (hx : toUInt8 (tooltipPosX disp str) = x) :
    (tooltip disp str : List (Call F M)) = [Call.DbgCursorPos x 2, Call.DbgPrint str] := by
  unfold tooltip
  rw [hx]

/-! ## Tooltip placement -/

/-- C1 (as amended): for a framebuffer width `W ≥ 0` and a text whose length
`L` fits in an `int`, `tooltip` computes `posX = max(0, (W/16)/2 - L/2)`,
places the cursor at column `posX mod 256` (the `uint8_t` conversion) on row
2 and then prints the text; the column is `posX` itself whenever `W < 8192`.
For `W = 800` and "RESET KC85/3" the column is 19. -/
theorem tooltip_cursor_column {F M : Type} (disp : DisplayAttrs) (str : String)
    (hW : 0 ≤ disp.FramebufferWidth) (hL : strlen str < 2147483648) :
    tooltipPosX disp str =
        max 0 (disp.FramebufferWidth / 16 / 2 - (strlen str : Int) / 2) ∧
    (tooltip disp str : List (Call F M)) =
        [Call.DbgCursorPos
            (max 0 (disp.FramebufferWidth / 16 / 2 - (strlen str : Int) / 2) % 256).toNat 2,
         Call.DbgPrint str] ∧
    (disp.FramebufferWidth < 8192 →
      (tooltip disp str : List (Call F M)) =
        [Call.DbgCursorPos
            (max 0 (disp.FramebufferWidth / 16 / 2 - (strlen str : Int) / 2)).toNat 2,
         Call.DbgPrint str]) ∧
    (disp.FramebufferWidth = 800 → str = "RESET KC85/3" →
      disp.FramebufferWidth / 16 = 50 ∧ disp.FramebufferWidth / 16 / 2 = 25 ∧
      strlen str = 12 ∧
      (tooltip disp str : List (Call F M)) =
        [Call.DbgCursorPos 19 2, Call.DbgPrint "RESET KC85/3"]) := by
  have hpos := tooltipPosX_eq disp str hW hL
  refine ⟨hpos, ?_, ?_, ?_⟩
  · exact tooltip_of_column disp str _ (by rw [← hpos]; rfl)
  · intro hlt
    apply tooltip_of_column
    rw [hpos]
    unfold toUInt8
    have : max 0 (disp.FramebufferWidth / 16 / 2 - (strlen str : Int) / 2) < 256 := by
      omega
    rw [Int.emod_eq_of_lt (le_max_left _ _) this]
  · intro h800 hstr
    subst hstr
    have hlen : strlen "RESET KC85/3" = 12 := by decide
    refine ⟨by omega, by omega, hlen, ?_⟩
    apply tooltip_of_column
    rw [hpos, hlen, h800]
    decide

/-- Witness for C1: an 800 pixel wide framebuffer and the text
"RESET KC85/3". -/
theorem tooltip_cursor_column_witness :
    (tooltip ⟨800, 512⟩ "RESET KC85/3" : List (Call Unit Unit)) =
      [Call.DbgCursorPos 19 2, Call.DbgPrint "RESET KC85/3"] :=
  ((tooltip_cursor_column (F := Unit) (M := Unit) ⟨800, 512⟩ "RESET KC85/3"
      (by decide) (by decide)).2.2.2 rfl rfl).2.2.2

/-- C1 fails as stated: with `W = 8400` and the 12-byte text "RESET KC85/3"
the claimed column is `max(0, 262 - 6) = 256`, but the cursor is placed at
column 0; with `W = 800` and a text of `2^31` bytes the claimed column is 0,
but the cursor is placed at column 25. -/
theorem tooltip_cursor_column_counterexample :
    (0 : Int) ≤ 8400 ∧ strlen "RESET KC85/3" = 12 ∧
    max (0 : Int) (8400 / 16 / 2 - 12 / 2) = 256 ∧
    (tooltip ⟨8400, 512⟩ "RESET KC85/3" : List (Call Unit Unit)) =
      [Call.DbgCursorPos 0 2, Call.DbgPrint "RESET KC85/3"] ∧
    strlen longText = 2147483648 ∧
    max (0 : Int) (800 / 16 / 2 - 2147483648 / 2) = 0 ∧
    (tooltip ⟨800, 512⟩ longText : List (Call Unit Unit)) =
      [Call.DbgCursorPos 25 2, Call.DbgPrint longText] := by
  refine ⟨by decide, by decide, by decide, ?_, strlen_longText, by decide, ?_⟩
  · exact tooltip_of_column _ _ _ (by decide)
  · apply tooltip_of_column
    rw [tooltipPosX_longText]
    decide

/-- C9 (as amended): for a framebuffer width `W ≥ 0` and a text whose length
`L` fits in an `int` and exceeds `2 * center`, where `center = (W/16)/2`,
`tooltip` sets `posX` to 0 and places the cursor at column 0. -/
theorem tooltip_clamps_long_text {F M : Type} (disp : DisplayAttrs) (str : String)
    (hW : 0 ≤ disp.FramebufferWidth) (hL : strlen str < 2147483648)
    (hlong : 2 * (disp.FramebufferWidth / 16 / 2) < (strlen str : Int)) :
    tooltipPosX disp str = 0 ∧
    (tooltip disp str : List (Call F M)) = [Call.DbgCursorPos 0 2, Call.DbgPrint str] := by
  have hpos : tooltipPosX disp str = 0 := by
    rw [tooltipPosX_eq disp str hW hL]
    omega
  exact ⟨hpos, tooltip_of_column disp str 0 (by rw [hpos]; rfl)⟩

/-- Witness for C9: a 32 pixel wide framebuffer (`center = 1`) and a 12-byte
text. -/
theorem tooltip_clamps_long_text_witness :
    tooltipPosX ⟨32, 32⟩ "RESET KC85/3" = 0 ∧
    (tooltip ⟨32, 32⟩ "RESET KC85/3" : List (Call Unit Unit)) =
      [Call.DbgCursorPos 0 2, Call.DbgPrint "RESET KC85/3"] :=
  tooltip_clamps_long_text ⟨32, 32⟩ "RESET KC85/3" (by decide) (by decide) (by decide)

/-- C9 fails as stated: with `W = 1600` (`center = 50`) and a text of `2^31`
bytes, which is longer than `2 * center`, `posX` is not clamped to 0: the
cursor is placed at column 50. -/
theorem tooltip_clamps_long_text_counterexample :
    strlen longText = 2147483648 ∧
    2 * ((1600 : Int) / 16 / 2) < 2147483648 ∧
    tooltipPosX ⟨1600, 1024⟩ longText = 1073741874 ∧
    (tooltip ⟨1600, 1024⟩ longText : List (Call Unit Unit)) =
      [Call.DbgCursorPos 50 2, Call.DbgPrint longText] := by
  have hpos : tooltipPosX ⟨1600, 1024⟩ longText = 1073741874 := by
    rw [tooltipPosX_longText]
    decide
  refine ⟨strlen_longText, by decide, hpos, ?_⟩
  apply tooltip_of_column
  rw [hpos]
  decide

/-! ## Lemmas on `handleInput` -/

section DispatchLemmas

variable {F M E C : Type}

theorem handleInput_attached (h : Host F M E C) (fr : Frame F) (app : App M E C)
    (hatt : fr.MouseAttached = true) :
    handleInput h fr app =
      ({ app with
          kc85Emu := (switchHit h fr.disp fr.MouseButtonDown (hitOf h fr app) app.kc85Emu).1 },
       Call.RayCheckTest (screenSpaceMousePos h fr) (h.inverse (h.View app.camera))
          (h.InvProj app.camera) ::
        (switchHit h fr.disp fr.MouseButtonDown (hitOf h fr app) app.kc85Emu).2) := by
  unfold handleInput hitOf
  simp only [hatt, if_true]

theorem emuCommands_tooltip (disp : DisplayAttrs) (str : String) :
    emuCommands (tooltip disp str : List (Call F M)) = [] := rfl

theorem dbgCalls_tooltip (disp : DisplayAttrs) (str : String) :
    dbgCalls (tooltip disp str : List (Call F M)) = tooltip disp str := rfl

theorem hit_cases (hit : Int) :
    hit = 0 ∨ hit = 1 ∨ hit = 2 ∨ hit = 3 ∨ hit = 4 ∨ hit = 5 ∨ hit = 6 ∨ hit = 7 ∨
    hit = 8 ∨ hit = 9 ∨ hit = 10 ∨ hit = 11 ∨ hit ∉ regionIds := by
  simp only [regionIds, List.mem_cons, List.mem_singleton, List.not_mem_nil, or_false,
    PowerOnButton, ResetButton, BaseDevice, Screen, Junost, Keyboard, TapeDeck, Jungle,
    Digger, Pengo, Boulderdash, Cave]
  omega

theorem switchHit_default (h : Host F M E C) (disp : DisplayAttrs) (lmb : Bool)
    (hit : Int) (emu : E) (hdef : hit ∉ regionIds) :
    switchHit h disp lmb hit emu =
      if h.SwitchedOn emu then (emu, []) else (emu, tooltip disp "EXPLORE!") := by
  simp only [regionIds, List.mem_cons, List.mem_singleton, List.not_mem_nil, or_false,
    not_or] at hdef
  obtain ⟨h0, h1, h2, h3, h4, h5, h6, h7, h8, h9, h10, h11⟩ := hdef
  unfold switchHit
  simp only [h0, h1, h2, h3, h4, h5, h6, h7, h8, h9, h10, h11, if_false]

theorem action_default {F M : Type} (hit : Int) (hdef : hit ∉ regionIds) :
    (DispatchEntry.action hit : Option (Call F M)) = none := by
  simp only [regionIds, List.mem_cons, List.mem_singleton, List.not_mem_nil, or_false,
    not_or] at hdef
  obtain ⟨h0, h1, h2, h3, h4, h5, h6, h7, h8, h9, h10, h11⟩ := hdef
  unfold DispatchEntry.action
  simp only [h0, h1, h7, h8, h9, h10, h11, if_false]

theorem switchHit_emuCommands (h : Host F M E C) (disp : DisplayAttrs) (lmb : Bool)
    (hit : Int) (emu : E) :
    emuCommands (switchHit h disp lmb hit emu).2 =
      if lmb then (DispatchEntry.action hit).toList else [] := by
  rcases hit_cases hit with
    rfl | rfl | rfl | rfl | rfl | rfl | rfl | rfl | rfl | rfl | rfl | rfl | hdef
  case inr.inr.inr.inr.inr.inr.inr.inr.inr.inr.inr.inr =>
    rw [switchHit_default h disp lmb hit emu hdef, action_default hit hdef]
    cases lmb <;> split_ifs <;> simp [emuCommands, tooltip]
  all_goals
    cases lmb <;>
      simp [switchHit, ifLmb, DispatchEntry.action, emuCommands, tooltip, apply_ite]

theorem switchHit_dbgCalls (h : Host F M E C) (disp : DisplayAttrs) (lmb : Bool)
    (hit : Int) (emu : E) (hreg : hit ∈ regionIds) :
    dbgCalls (switchHit h disp lmb hit emu).2 =
      if hit = Screen then []
      else
        match DispatchEntry.tooltipText hit (h.SwitchedOn (switchHit h disp lmb hit emu).1) with
        | some text => tooltip disp text
        | none => [] := by
  rcases hit_cases hit with
    rfl | rfl | rfl | rfl | rfl | rfl | rfl | rfl | rfl | rfl | rfl | rfl | hdef
  case inr.inr.inr.inr.inr.inr.inr.inr.inr.inr.inr.inr => exact absurd hreg hdef
  all_goals
    cases lmb <;> simp [switchHit, ifLmb, DispatchEntry.tooltipText] <;>
      (try split_ifs) <;> simp [dbgCalls, tooltip]

theorem quitChecks_switchHit (h : Host F M E C) (disp : DisplayAttrs) (lmb : Bool)
    (hit : Int) (emu : E) :
    quitChecks (switchHit h disp lmb hit emu).2 = 0 := by
  rcases hit_cases hit with
    rfl | rfl | rfl | rfl | rfl | rfl | rfl | rfl | rfl | rfl | rfl | rfl | hdef
  case inr.inr.inr.inr.inr.inr.inr.inr.inr.inr.inr.inr =>
    rw [switchHit_default h disp lmb hit emu hdef]
    split_ifs <;> simp [quitChecks, tooltip]
  all_goals
    cases lmb <;> simp [switchHit, ifLmb] <;>
      (try split_ifs) <;> simp [quitChecks, tooltip]

theorem quitChecks_handleInput (h : Host F M E C) (fr : Frame F) (app : App M E C) :
    quitChecks (handleInput h fr app).2 = 0 := by
  cases hatt : fr.MouseAttached
  · simp [handleInput, hatt, quitChecks]
  · rw [handleInput_attached h fr app hatt]
    have := quitChecks_switchHit h fr.disp fr.MouseButtonDown (hitOf h fr app) app.kc85Emu
    simpa [quitChecks] using this

theorem resetCount_OnRunning (h : Host F M E C) (fr : Frame F) (app : App M E C)
    (hatt : fr.MouseAttached = true)
    (hhit : hitOf h fr { app with camera := h.CameraUpdate fr.toInput app.camera } = ResetButton) :
    resetCount (OnRunning h fr app).2.1 = if fr.MouseButtonDown then 1 else 0 := by
  unfold OnRunning
  simp only [handleInput_attached h fr _ hatt, hhit]
  cases fr.MouseButtonDown <;> simp [switchHit, ifLmb, resetCount, tooltip]

theorem resetCount_runFrames (h : Host F M E C) (frs : List (Frame F)) :
    ∀ app : App M E C, pointerOn h ResetButton app frs →
      resetCount (runFrames h app frs).2 = heldCount frs := by
  induction frs with
  | nil => intro app _; rfl
  | cons fr frs ih =>
    intro app hon
    obtain ⟨hatt, hhit, hrest⟩ := hon
    have hstep := resetCount_OnRunning h fr app hatt hhit
    have htail := ih _ hrest
    unfold resetCount at hstep htail ⊢
    unfold heldCount at htail ⊢
    simp only [runFrames, List.countP_append, List.countP_cons, hstep, htail]
    cases fr.MouseButtonDown
    · simp
    · simp
      omega

end DispatchLemmas

/-! ## Input dispatch -/

section DispatchTheorems

variable {F M E C : Type}

/-- C2: with a pointer attached, the emulator commands issued by one call of
`handleInput` are exactly the action of the hit entry, once, if the primary
button is held and the entry has an action (PowerOnButton: TogglePower,
ResetButton: Reset, Jungle, Digger, Pengo, Boulderdash, Cave: StartGame with
that name), and none otherwise. Consequently, over any run of frames with
the ray on ResetButton, the number of Reset invocations is the number of
frames on which the button was held. -/
theorem handleInput_commands (h : Host F M E C) (fr : Frame F) (app : App M E C)
    (hatt : fr.MouseAttached = true) :
    emuCommands (handleInput h fr app).2 =
        (if fr.MouseButtonDown then (DispatchEntry.action (hitOf h fr app)).toList else []) ∧
    (∀ (app0 : App M E C) (frs : List (Frame F)), pointerOn h ResetButton app0 frs →
        resetCount (runFrames h app0 frs).2 = heldCount frs) := by
  refine ⟨?_, fun app0 frs hon => resetCount_runFrames h frs app0 hon⟩
  rw [handleInput_attached h fr app hatt]
  have := switchHit_emuCommands h fr.disp fr.MouseButtonDown (hitOf h fr app) app.kc85Emu
  simpa [emuCommands] using this

/-- Witness for C2: the ray on ResetButton, three frames with the button
held on the first and the last. -/
theorem handleInput_commands_witness :
    emuCommands (handleInput (demoHost ResetButton) (demoFrame true) (demoApp true)).2 =
      [Call.Reset] ∧
    resetCount (runFrames (demoHost ResetButton) (demoApp true)
      [demoFrame true, demoFrame false, demoFrame true]).2 = 2 :=
  ⟨(handleInput_commands (demoHost ResetButton) (demoFrame true) (demoApp true) rfl).1,
   (handleInput_commands (demoHost ResetButton) (demoFrame true) (demoApp true) rfl).2
      (demoApp true) [demoFrame true, demoFrame false, demoFrame true]
      ⟨rfl, rfl, rfl, rfl, rfl, rfl, trivial⟩⟩

/-- C3: with a pointer attached and the hit on one of the twelve registered
regions, one call of `handleInput` renders exactly one tooltip, the text of
the hit entry, if the region is not Screen, whatever the button state and
the power state of the emulator; on Screen it renders no tooltip. -/
theorem handleInput_tooltip (h : Host F M E C) (fr : Frame F) (app : App M E C)
    (hatt : fr.MouseAttached = true) (hreg : hitOf h fr app ∈ regionIds) :
    (hitOf h fr app ≠ Screen →
      ∃ text,
        DispatchEntry.tooltipText (hitOf h fr app)
            (h.SwitchedOn (handleInput h fr app).1.kc85Emu) = some text ∧
        dbgCalls (handleInput h fr app).2 = tooltip fr.disp text) ∧
    (hitOf h fr app = Screen → dbgCalls (handleInput h fr app).2 = []) := by
  have key := switchHit_dbgCalls h fr.disp fr.MouseButtonDown (hitOf h fr app) app.kc85Emu hreg
  have hd : dbgCalls (handleInput h fr app).2 =
      dbgCalls (switchHit h fr.disp fr.MouseButtonDown (hitOf h fr app) app.kc85Emu).2 := by
    rw [handleInput_attached h fr app hatt]
    simp [dbgCalls]
  have he : (handleInput h fr app).1.kc85Emu =
      (switchHit h fr.disp fr.MouseButtonDown (hitOf h fr app) app.kc85Emu).1 := by
    rw [handleInput_attached h fr app hatt]
  constructor
  · intro hns
    rw [if_neg hns] at key
    rw [hd, he, key]
    have hsome : ∀ b, ∃ text, DispatchEntry.tooltipText (hitOf h fr app) b = some text := by
      intro b
      rcases hit_cases (hitOf h fr app) with
        h0 | h0 | h0 | h0 | h0 | h0 | h0 | h0 | h0 | h0 | h0 | h0 | hdef
      case inr.inr.inr.inr.inr.inr.inr.inr.inr.inr.inr.inr => exact absurd hreg hdef
      case inr.inr.inr.inl => exact absurd h0 hns
      all_goals
        rw [h0]
        cases b <;> simp [DispatchEntry.tooltipText]
    obtain ⟨text, ht⟩ := hsome
      (h.SwitchedOn (switchHit h fr.disp fr.MouseButtonDown (hitOf h fr app) app.kc85Emu).1)
    exact ⟨text, ht, by rw [ht]⟩
  · intro hs
    rw [if_pos hs] at key
    rw [hd, key]

/-- Witness for C3: the ray on Keyboard, and the ray on Screen. -/
theorem handleInput_tooltip_witness :
    (∃ text,
      DispatchEntry.tooltipText (hitOf (demoHost Keyboard) (demoFrame false) (demoApp true))
        ((demoHost Keyboard).SwitchedOn
          (handleInput (demoHost Keyboard) (demoFrame false) (demoApp true)).1.kc85Emu) =
        some text ∧
      dbgCalls (handleInput (demoHost Keyboard) (demoFrame false) (demoApp true)).2 =
        tooltip (demoFrame false).disp text) ∧
    dbgCalls (handleInput (demoHost Screen) (demoFrame true) (demoApp false)).2 = [] :=
  ⟨(handleInput_tooltip (demoHost Keyboard) (demoFrame false) (demoApp true) rfl
      (by decide)).1 (by decide),
   (handleInput_tooltip (demoHost Screen) (demoFrame true) (demoApp false) rfl
      (by decide)).2 rfl⟩

/-- C4: with a pointer attached and the hit on PowerOnButton, the tooltip
rendered by `handleInput` is "SWITCH KC85/3 OFF" if the emulator reports it
is switched on and "SWITCH KC85/3 ON" otherwise; it is the only tooltip
rendered. The emulator is queried in the state it has once the toggle of
this call, if any, has been done. -/
theorem handleInput_power_tooltip (h : Host F M E C) (fr : Frame F) (app : App M E C)
    (hatt : fr.MouseAttached = true) (hhit : hitOf h fr app = PowerOnButton) :
    (handleInput h fr app).1.kc85Emu =
        (if fr.MouseButtonDown then h.TogglePower app.kc85Emu else app.kc85Emu) ∧
    dbgCalls (handleInput h fr app).2 =
        tooltip fr.disp
          (if h.SwitchedOn (handleInput h fr app).1.kc85Emu then "SWITCH KC85/3 OFF"
           else "SWITCH KC85/3 ON") ∧
    (dbgCalls (handleInput h fr app).2).length = 2 := by
  rw [handleInput_attached h fr app hatt, hhit]
  cases fr.MouseButtonDown <;> simp [switchHit, ifLmb] <;>
    split_ifs <;> simp [dbgCalls, tooltip]

/-- Witness for C4: the emulator is on and the button is not held. -/
theorem handleInput_power_tooltip_witness :
    dbgCalls (handleInput (demoHost PowerOnButton) (demoFrame false) (demoApp true)).2 =
      [Call.DbgCursorPos 17 2, Call.DbgPrint "SWITCH KC85/3 OFF"] :=
  (handleInput_power_tooltip (demoHost PowerOnButton) (demoFrame false) (demoApp true)
    rfl rfl).2.1

/-- C5: with a pointer attached and a hit value that is none of the twelve
region ids, `handleInput` renders the tooltip "EXPLORE!" if and only if the
emulator is switched off, and invokes no emulator command, whatever the
button state; the emulator state is unchanged. -/
theorem handleInput_default (h : Host F M E C) (fr : Frame F) (app : App M E C)
    (hatt : fr.MouseAttached = true) (hdef : hitOf h fr app ∉ regionIds) :
    dbgCalls (handleInput h fr app).2 =
        (if h.SwitchedOn app.kc85Emu then [] else tooltip fr.disp "EXPLORE!") ∧
    emuCommands (handleInput h fr app).2 = [] ∧
    (handleInput h fr app).1 = app := by
  rw [handleInput_attached h fr app hatt, switchHit_default h _ _ _ _ hdef]
  split_ifs <;> simp [dbgCalls, emuCommands, tooltip]

/-- Witness for C5: the ray test yields -1 (no hit), the emulator is off and
the button is held. -/
theorem handleInput_default_witness :
    dbgCalls (handleInput (demoHost (-1)) (demoFrame true) (demoApp false)).2 =
      [Call.DbgCursorPos 21 2, Call.DbgPrint "EXPLORE!"] ∧
    emuCommands (handleInput (demoHost (-1)) (demoFrame true) (demoApp false)).2 = [] ∧
    (handleInput (demoHost (-1)) (demoFrame true) (demoApp false)).1 = demoApp false :=
  handleInput_default (demoHost (-1)) (demoFrame true) (demoApp false) rfl (by decide)

/-- C6: without a pointer device, one call of `handleInput` makes no call at
all (no ray test, no tooltip, no emulator command) and leaves the
application state unchanged, whatever the pointer position, the button state
and the emulator state. -/
theorem handleInput_no_pointer (h : Host F M E C) (fr : Frame F) (app : App M E C)
    (hatt : fr.MouseAttached = false) :
    handleInput h fr app = (app, []) ∧
    rayTests (handleInput h fr app).2 = [] ∧
    dbgCalls (handleInput h fr app).2 = [] ∧
    emuCommands (handleInput h fr app).2 = [] := by
  have hnone : handleInput h fr app = (app, []) := by
    unfold handleInput
    simp [hatt]
  rw [hnone]
  exact ⟨rfl, rfl, rfl, rfl⟩

/-- Witness for C6: no pointer device, the button reported held, the ray
test set up to yield ResetButton. -/
theorem handleInput_no_pointer_witness :
    handleInput (demoHost ResetButton) (noPointerFrame true) (demoApp true) =
      (demoApp true, []) :=
  (handleInput_no_pointer (demoHost ResetButton) (noPointerFrame true) (demoApp true) rfl).1

/-- C10: with a pointer attached, the hit on PowerOnButton and an emulator
whose `TogglePower` flips the value reported by `SwitchedOn`: if the button
is held, `handleInput` toggles the power first and the tooltip describes the
state after the toggle ("SWITCH KC85/3 OFF" for an emulator that was off,
"SWITCH KC85/3 ON" for one that was on); if the button is not held, no
command is issued and the tooltip describes the unchanged state. -/
theorem handleInput_power_toggle_first (h : Host F M E C) (fr : Frame F) (app : App M E C)
    (hflip : ∀ e, h.SwitchedOn (h.TogglePower e) = !h.SwitchedOn e)
    (hatt : fr.MouseAttached = true) (hhit : hitOf h fr app = PowerOnButton) :
    (fr.MouseButtonDown = true →
      (handleInput h fr app).2 =
        [Call.RayCheckTest (screenSpaceMousePos h fr) (h.inverse (h.View app.camera))
            (h.InvProj app.camera),
         Call.TogglePower] ++
        tooltip fr.disp
          (if h.SwitchedOn app.kc85Emu then "SWITCH KC85/3 ON" else "SWITCH KC85/3 OFF")) ∧
    (fr.MouseButtonDown = false →
      (handleInput h fr app).2 =
        [Call.RayCheckTest (screenSpaceMousePos h fr) (h.inverse (h.View app.camera))
            (h.InvProj app.camera)] ++
        tooltip fr.disp
          (if h.SwitchedOn app.kc85Emu then "SWITCH KC85/3 OFF" else "SWITCH KC85/3 ON") ∧
      (handleInput h fr app).1 = app) := by
  rw [handleInput_attached h fr app hatt, hhit]
  constructor
  · intro hl
    cases hs : h.SwitchedOn app.kc85Emu <;> simp [switchHit, ifLmb, hl, hflip, hs]
  · intro hl
    cases hs : h.SwitchedOn app.kc85Emu <;> simp [switchHit, ifLmb, hl, hs]

/-- Witness for C10: the emulator is off at the start of the frame and the
button is held. -/
theorem handleInput_power_toggle_first_witness :
    (handleInput (demoHost PowerOnButton) (demoFrame true) (demoApp false)).2 =
      [Call.RayCheckTest (0, 0) () (), Call.TogglePower,
       Call.DbgCursorPos 17 2, Call.DbgPrint "SWITCH KC85/3 OFF"] :=
  (handleInput_power_toggle_first (demoHost PowerOnButton) (demoFrame true) (demoApp false)
    (fun e => by cases e <;> rfl) rfl rfl).1 rfl

end DispatchTheorems

/-! ## The frame callback -/

/-- C8: one call of `OnRunning` carries out the steps of the frame in the
fixed order camera update, input dispatch, emulator update, render pass
(scene, emulator, debug text), frame commit, and only then queries the quit
request, once; it returns Cleanup if and only if quit was requested and
Running otherwise, and the steps and the resulting state are the same in
both cases. -/
theorem OnRunning_order {F M E C : Type} (h : Host F M E C) (fr : Frame F)
    (app : App M E C) :
    (OnRunning h fr app).2.1 =
      Call.CameraUpdate ::
        ((handleInput h fr { app with camera := h.CameraUpdate fr.toInput app.camera }).2 ++
          [Call.EmuUpdate, Call.BeginPass,
           Call.SceneRender (h.ViewProj (h.CameraUpdate fr.toInput app.camera)),
           Call.EmuRender (h.mul (h.ViewProj (h.CameraUpdate fr.toInput app.camera)) app.kcModelMatrix),
           Call.DrawTextBuffer, Call.EndPass, Call.CommitFrame, Call.QuitRequested]) ∧
    quitChecks (OnRunning h fr app).2.1 = 1 ∧
    (OnRunning h fr app).2.1.getLast? = some Call.QuitRequested ∧
    ((OnRunning h fr app).2.2 = AppState.Cleanup ↔ fr.QuitRequested = true) ∧
    ((OnRunning h fr app).2.2 = AppState.Running ↔ fr.QuitRequested = false) ∧
    (∀ q : Bool,
      (OnRunning h { fr with QuitRequested := q } app).1 = (OnRunning h fr app).1 ∧
      (OnRunning h { fr with QuitRequested := q } app).2.1 = (OnRunning h fr app).2.1) := by
  have hcam : ∀ a : App M E C, (handleInput h fr a).1.camera = a.camera ∧
      (handleInput h fr a).1.kcModelMatrix = a.kcModelMatrix := by
    intro a
    unfold handleInput
    split_ifs <;> simp
  have hq := quitChecks_handleInput h fr { app with camera := h.CameraUpdate fr.toInput app.camera }
  obtain ⟨hc, hm⟩ := hcam { app with camera := h.CameraUpdate fr.toInput app.camera }
  have htrace : (OnRunning h fr app).2.1 =
      Call.CameraUpdate ::
        ((handleInput h fr { app with camera := h.CameraUpdate fr.toInput app.camera }).2 ++
          [Call.EmuUpdate, Call.BeginPass,
           Call.SceneRender (h.ViewProj (h.CameraUpdate fr.toInput app.camera)),
           Call.EmuRender (h.mul (h.ViewProj (h.CameraUpdate fr.toInput app.camera)) app.kcModelMatrix),
           Call.DrawTextBuffer, Call.EndPass, Call.CommitFrame, Call.QuitRequested]) := by
    simp only [OnRunning, hc, hm, List.singleton_append, List.cons_append, List.nil_append]
  refine ⟨htrace, ?_, ?_, ?_, ?_, ?_⟩
  · rw [htrace]
    unfold quitChecks at hq ⊢
    simp [List.countP_cons, List.countP_append, hq]
  · rw [htrace, ← List.cons_append, List.getLast?_append_of_ne_nil _ (by simp)]
    rfl
  · cases hqr : fr.QuitRequested <;> simp [OnRunning, hqr]
  · cases hqr : fr.QuitRequested <;> simp [OnRunning, hqr]
  · intro q
    exact ⟨rfl, rfl⟩

/-! ## The regions registered by `OnInit` -/

/-- C7: each of the twelve `(min, max)` pairs registered by `OnInit` has
`min.x < max.x`, `min.y < max.y` and `min.z < max.z`, and the twelve ids
passed to `Add` are pairwise distinct (they are the twelve region ids); so
every `Add` call of `OnInit` meets its preconditions and the setup of the ray
checker succeeds. -/
theorem OnInit_regions_valid :
    OnInitRegions.length = 12 ∧
    (∀ r ∈ OnInitRegions, r.min.x < r.max.x ∧ r.min.y < r.max.y ∧ r.min.z < r.max.z) ∧
    (OnInitRegions.map Region.id).Nodup ∧
    (∀ id ∈ regionIds, id ∈ OnInitRegions.map Region.id) ∧
    OnInitRayChecker = some OnInitRegions := by
  refine ⟨by decide, by decide, by decide, by decide, by decide⟩

end KC853
